import Mathlib

/-!
# Verification of the retail Bronze-layer ingestion pipeline

Shallow embedding of `src/ingestion/retail_ingestion_pipeline.py`
(class `RetailDataIngestionPipeline`) and proofs of the specification
claims about it.

Modelling conventions:
* Python `int` counters are embedded as `Int`; machine-level sizes as `Nat`.
* A pandas cell value is a `PyVal`; `PyVal.str` mirrors Python `str()` on the
  value shapes that occur in this dataset (ints, plain-format floats,
  strings, NaN).
* SHA-256 is implemented bit-faithfully over `Nat` bytes (32-bit words are
  `Nat` reduced `% 2^32`).
* Database writes succeed or fail depending on content; this is modelled by
  an oracle (`DbOracle`) giving the outcome of each bulk chunk write and of
  each individual row write.  All counting/idempotence theorems quantify
  over the oracle.
-/

namespace RetailPipeline

/-- A pandas/Python cell value as it occurs in the retail DataFrame.
`pfloat i f` denotes the float printed `toString i ++ "." ++ f`
(e.g. `pfloat 5 "0"` is Python `5.0`); `pnan` is a missing value (NaN). -/
inductive PyVal where
  | pint : Int → PyVal
  | pfloat : Int → String → PyVal
  | pstr : String → PyVal
  | pdate : Int → PyVal
  | pnan : PyVal
deriving DecidableEq, Repr

/-- Python `str()` on a `PyVal`.  `str` of an int prints its digits, a float
prints integer part, dot, fractional digits; `str(nan) = "nan"`; a `pdate`
(pandas Timestamp, as produced by `pd.to_datetime`) prints its rendering,
modelled as `"ts<n>"` for timestamp value n. -/
def PyVal.str : PyVal → String
  | .pint n => toString n
  | .pfloat i f => toString i ++ "." ++ f
  | .pstr s => s
  | .pdate d => "ts" ++ toString d
  | .pnan => "nan"

/-- A DataFrame row as a key-value mapping (Python dict from `row.to_dict()`). -/
abbrev Record := List (String × PyVal)

/-- Python `dict.get k`: first binding of `k`, if any. -/
def Record.get (r : Record) (k : String) : Option PyVal :=
  (List.find? (fun p => p.1 == k) r).map (·.2)

/-- `str(record.get(k, ''))`: the stringified value, `""` when the key is
absent (Python `str('') = ''`). -/
def Record.getStr (r : Record) (k : String) : String :=
  match r.get k with
  | some v => v.str
  | none => ""

/-! ## SHA-256 (pure `Nat` implementation)

`generate_record_hash` returns `hashlib.sha256(record_str.encode()).hexdigest()`.
We implement SHA-256 exactly: UTF-8 encoding, padding, message schedule,
compression, hex digest. -/

/-- Truncate to a 32-bit word. -/
def w32 (n : Nat) : Nat := n % 4294967296

/-- Right-rotate a 32-bit word by `k` bits. -/
def rotr (k n : Nat) : Nat := w32 ((n >>> k) ||| (n <<< (32 - k)))

/-- The 64 SHA-256 round constants (FIPS 180-4, in decimal). -/
def shaK : List Nat :=
  [1116352408, 1899447441, 3049323471, 3921009573, 961987163,
   1508970993, 2453635748, 2870763221, 3624381080, 310598401,
   607225278, 1426881987, 1925078388, 2162078206, 2614888103,
   3248222580, 3835390401, 4022224774, 264347078, 604807628,
   770255983, 1249150122, 1555081692, 1996064986, 2554220882,
   2821834349, 2952996808, 3210313671, 3336571891, 3584528711,
   113926993, 338241895, 666307205, 773529912, 1294757372,
   1396182291, 1695183700, 1986661051, 2177026350, 2456956037,
   2730485921, 2820302411, 3259730800, 3345764771, 3516065817,
   3600352804, 4094571909, 275423344, 430227734, 506948616,
   659060556, 883997877, 958139571, 1322822218, 1537002063,
   1747873779, 1955562222, 2024104815, 2227730452, 2361852424,
   2428436474, 2756734187, 3204031479, 3329325298]

/-- The SHA-256 initial hash value (FIPS 180-4, in decimal). -/
def shaInitH : List Nat :=
  [1779033703, 3144134277, 1013904242, 2773480762,
   1359893119, 2600822924, 528734635, 1541459225]

/-- UTF-8 encoding of one character, as byte values. -/
def utf8EncodeCharNat (c : Char) : List Nat :=
  let n := c.toNat
  if n < 0x80 then [n]
  else if n < 0x800 then
    [0xC0 ||| (n >>> 6), 0x80 ||| (n &&& 0x3F)]
  else if n < 0x10000 then
    [0xE0 ||| (n >>> 12), 0x80 ||| ((n >>> 6) &&& 0x3F), 0x80 ||| (n &&& 0x3F)]
  else
    [0xF0 ||| (n >>> 18), 0x80 ||| ((n >>> 12) &&& 0x3F),
     0x80 ||| ((n >>> 6) &&& 0x3F), 0x80 ||| (n &&& 0x3F)]

/-- `s.encode()`: the UTF-8 bytes of a string. -/
def strBytes (s : String) : List Nat := s.data.flatMap utf8EncodeCharNat

/-- Big-endian byte decomposition, `k` bytes. -/
def toBytesBE (k n : Nat) : List Nat :=
  (List.range k).map (fun i => (n >>> (8 * (k - 1 - i))) &&& 0xFF)

/-- Fuel-driven worker for `chunkList` (structural recursion on the fuel so
that the kernel can evaluate it). -/
def chunkListF : Nat → Nat → List α → List (List α)
  | 0, _, _ => []
  | _, _, [] => []
  | fuel + 1, n, l => l.take n :: chunkListF fuel n (l.drop n)

/-- Split a list into consecutive chunks of size `n` (last chunk may be
shorter); `[]` when `n = 0`.  This is the batching scheme of
`load_data_to_bronze` (`total_batches = ceil(len/batch_size)`, batch `i` is
the slice `[i*batch_size, min((i+1)*batch_size, len))`). -/
def chunkList (n : Nat) (l : List α) : List (List α) :=
  if n == 0 then [] else chunkListF l.length n l

/-- 64 message bytes into 16 big-endian 32-bit words. -/
def bytesToWords (bs : List Nat) : List Nat :=
  (chunkList 4 bs).map (fun c => c.foldl (fun acc b => acc * 256 + b) 0)

/-- SHA-256 padding: append `0x80`, zeros to 56 mod 64, then the bit length
as 8 big-endian bytes. -/
def shaPad (msg : List Nat) : List Nat :=
  let L := msg.length
  let zeros := (119 - L % 64) % 64
  msg ++ [0x80] ++ List.replicate zeros 0 ++ toBytesBE 8 (8 * L)

/-- Extend 16 schedule words to 64. -/
def shaSchedule (ws : List Nat) : Array Nat :=
  (List.range 48).foldl
    (fun a j =>
      let i := j + 16
      let x15 := a.getD (i - 15) 0
      let x2 := a.getD (i - 2) 0
      let s0 := (rotr 7 x15) ^^^ (rotr 18 x15) ^^^ (x15 >>> 3)
      let s1 := (rotr 17 x2) ^^^ (rotr 19 x2) ^^^ (x2 >>> 10)
      a.push (w32 (a.getD (i - 16) 0 + s0 + a.getD (i - 7) 0 + s1)))
    ws.toArray

/-- Working state of the SHA-256 compression function. -/
structure ShaState where
  a : Nat
  b : Nat
  c : Nat
  d : Nat
  e : Nat
  f : Nat
  g : Nat
  h : Nat

/-- One round of the SHA-256 compression function; `wk` is the pair of
schedule word and round constant. -/
def shaRound (st : ShaState) (wk : Nat × Nat) : ShaState :=
  let S1 := (rotr 6 st.e) ^^^ (rotr 11 st.e) ^^^ (rotr 25 st.e)
  let ch := (st.e &&& st.f) ^^^ ((0xFFFFFFFF ^^^ st.e) &&& st.g)
  let t1 := w32 (st.h + S1 + ch + wk.2 + wk.1)
  let S0 := (rotr 2 st.a) ^^^ (rotr 13 st.a) ^^^ (rotr 22 st.a)
  let maj := (st.a &&& st.b) ^^^ (st.a &&& st.c) ^^^ (st.b &&& st.c)
  let t2 := w32 (S0 + maj)
  ⟨w32 (t1 + t2), st.a, st.b, st.c, w32 (st.d + t1), st.e, st.f, st.g⟩

/-- Compress one 64-byte block into the running hash. -/
def shaBlock (hs : List Nat) (block : List Nat) : List Nat :=
  let ws := (shaSchedule (bytesToWords block)).toList
  let st0 : ShaState :=
    ⟨hs.getD 0 0, hs.getD 1 0, hs.getD 2 0, hs.getD 3 0,
     hs.getD 4 0, hs.getD 5 0, hs.getD 6 0, hs.getD 7 0⟩
  let st := (ws.zip shaK).foldl shaRound st0
  List.zipWith (fun x y => w32 (x + y)) hs
    [st.a, st.b, st.c, st.d, st.e, st.f, st.g, st.h]

/-- SHA-256 digest of a byte sequence, as 32 bytes. -/
def sha256Bytes (msg : List Nat) : List Nat :=
  ((chunkList 64 (shaPad msg)).foldl shaBlock shaInitH).flatMap (toBytesBE 4)

/-- One hex digit. -/
def hexDigit (n : Nat) : Char :=
  if n < 10 then Char.ofNat (48 + n) else Char.ofNat (87 + n)

/-- Lower-case hex rendering of bytes (`hexdigest()`). -/
def bytesToHex (bs : List Nat) : String :=
  String.mk (bs.flatMap (fun b => [hexDigit (b / 16), hexDigit (b % 16)]))

/-- `hashlib.sha256(s.encode()).hexdigest()`. -/
def sha256hex (s : String) : String := bytesToHex (sha256Bytes (strBytes s))

/-! ## `generate_record_hash` (lines 71-91) -/

/-- The `'|'`-joined string representation that `generate_record_hash` builds
from the six canonical fields (`str(record.get(field, ''))` for each). -/
def record_str (r : Record) : String :=
  String.intercalate "|"
    [r.getStr "invoice", r.getStr "stock_code", r.getStr "quantity",
     r.getStr "invoice_date", r.getStr "unit_price", r.getStr "customer_id"]

/-- `generate_record_hash`: SHA-256 hex digest of the joined field string. -/
def generate_record_hash (r : Record) : String := sha256hex (record_str r)

/-! ## The Dedup Loader: `load_data_to_bronze` (lines 275-389)

The database is modelled by the set (list) of `record_hash` values present in
`bronze.retail_raw` plus an oracle `DbOracle` fixing, per written content,
whether a bulk chunk write (`to_sql(..., method='multi')`) succeeds and
whether an individual row write succeeds.  The counting theorems quantify
over this oracle. -/

/-- `batch_size` from `__init__` (line 57). -/
def batch_size : Nat := 10000

/-- The `column_mapping` dict (lines 297-306). -/
def column_mapping : List (String × String) :=
  [("InvoiceNo", "invoice"), ("StockCode", "stock_code"),
   ("Description", "description"), ("Quantity", "quantity"),
   ("InvoiceDate", "invoice_date"), ("UnitPrice", "unit_price"),
   ("CustomerID", "customer_id"), ("Country", "country")]

/-- `df.rename(columns=column_mapping)` on one key. -/
def renameKey (k : String) : String :=
  match List.find? (fun p => p.1 == k) column_mapping with
  | some p => p.2
  | none => k

/-- `df.rename(columns=column_mapping)` on one row. -/
def renameRecord (r : Record) : Record :=
  r.map (fun p => (renameKey p.1, p.2))

/-- Column assignment `df[k] = v` on one row: replaces any existing binding. -/
def Record.setCol (r : Record) (k : String) (v : PyVal) : Record :=
  r.filter (fun p => !(p.1 == k)) ++ [(k, v)]

/-- The audit columns added at lines 310-312 (`load_timestamp`,
`source_file`, `load_id`).  `generate_record_hash` reads none of them. -/
def withAudit (t : Int) (source_file load_id : String) (r : Record) : Record :=
  ((r.setCol "load_timestamp" (.pdate t)).setCol "source_file"
      (.pstr source_file)).setCol "load_id" (.pstr load_id)

/-- Outcomes of database writes, as a deterministic function of the written
content: `bulkOk b` is whether the single bulk write of chunk `b` succeeds,
`rowOk r` whether the individual insert of row `r` succeeds. -/
structure DbOracle where
  bulkOk : List Record → Bool
  rowOk : Record → Bool

/-- Mutable state of the loading loop: the two counters (Python ints) and
the store contents (list of `record_hash` values in insertion order). -/
structure LoadSt where
  loaded : Int
  failed : Int
  store : List String
deriving DecidableEq, Repr

/-- One iteration of the row-by-row fallback loop (lines 362-375): a row
that inserts successfully increments `records_loaded` and decrements
`records_failed`; a failing row only logs. -/
def rowStep (o : DbOracle) (st : LoadSt) (r : Record) : LoadSt :=
  if o.rowOk r then
    { loaded := st.loaded + 1, failed := st.failed - 1,
      store := st.store ++ [generate_record_hash r] }
  else st

/-- One iteration of the batch loop (lines 334-375): try the bulk write; on
success count the whole chunk as loaded; on failure count the whole chunk
as failed, then retry row by row. -/
def chunkStep (o : DbOracle) (st : LoadSt) (batch : List Record) : LoadSt :=
  if o.bulkOk batch then
    { loaded := st.loaded + batch.length, failed := st.failed,
      store := st.store ++ batch.map generate_record_hash }
  else
    batch.foldl (rowStep o) { st with failed := st.failed + batch.length }

/-- Results of `load_data_to_bronze`: the returned pair
`(records_loaded, records_failed)` plus, for the spec claims, the duplicate
count computed at line 327 and the final store contents. -/
structure LoadResult where
  records_loaded : Int
  records_failed : Int
  skipped : Int
  store : List String
deriving DecidableEq, Repr

/-- `df_copy` (lines 294-312): the input rows renamed and with audit
columns added. -/
def bronzeRows (df : List Record) (t : Int) (source_file load_id : String) :
    List Record :=
  df.map (fun r => withAudit t source_file load_id (renameRecord r))

/-- `df_to_insert` (line 326): the rows whose `record_hash` is not among
the hashes already in `bronze.retail_raw`. -/
def toInsertRows (df : List Record) (t : Int) (source_file load_id : String)
    (store : List String) : List Record :=
  (bronzeRows df t source_file load_id).filter
    (fun r => !(store.contains (generate_record_hash r)))

/-- `load_data_to_bronze` on the no-critical-exception path: rename columns,
add audit columns, hash every row, drop rows whose hash is already stored,
then write in `batch_size`-chunks with row-level fallback. -/
def load_data_to_bronze (o : DbOracle) (df : List Record) (t : Int)
    (source_file load_id : String) (store : List String) : LoadResult :=
  let df_copy := bronzeRows df t source_file load_id
  let df_to_insert := toInsertRows df t source_file load_id store
  let skipped : Int := (df_copy.length : Int) - (df_to_insert.length : Int)
  let fin := (chunkList batch_size df_to_insert).foldl (chunkStep o) ⟨0, 0, store⟩
  ⟨fin.loaded, fin.failed, skipped, fin.store⟩

/-! ## The Validator: `validate_data_quality` (lines 93-203)

Numeric cell values are compared through `PyVal.decVal`, the exact decimal
value as a scaled integer `(num, e)` denoting `num / 10^e`; non-numeric
values (strings, NaN) yield `none` and compare as pandas NaN does (every
comparison false).  The NaN-skipping `df[c].max() > threshold` is modelled
by the equivalent "some numeric cell exceeds the threshold", and the float
comparison `null_fraction > 0.1` by the exact `10 * nulls > rows`.  Warning
messages whose Python formatting involves percent/float rendering are
modelled by their fixed prefix, since no claim inspects warning text;
blocking-issue messages are modelled exactly. -/

/-- Exact decimal value of a numeric cell: `some (num, e)` denotes
`num / 10 ^ e`. -/
def PyVal.decVal : PyVal → Option (Int × Nat)
  | .pint n => some (n, 0)
  | .pfloat i f =>
    let fr : Int := f.data.foldl (fun a c => a * 10 + (c.toNat - 48 : Nat)) 0
    some (if 0 ≤ i then i * 10 ^ f.length + fr else i * 10 ^ f.length - fr, f.length)
  | _ => none

/-- Strict order on scaled decimals. -/
def decLt (x y : Int × Nat) : Bool :=
  decide (x.1 * (10 : Int) ^ y.2 < y.1 * (10 : Int) ^ x.2)

/-- pandas `v < 0` on a cell (false for NaN / non-numeric). -/
def pyNeg (v : PyVal) : Bool :=
  match v.decVal with
  | some x => decLt x (0, 0)
  | none => false

/-- pandas `v == 0` on a cell (false for NaN / non-numeric). -/
def pyZero (v : PyVal) : Bool :=
  match v.decVal with
  | some x => x.1 == 0
  | none => false

/-- pandas `v > c` on a cell for an integer threshold `c`. -/
def pyGtInt (v : PyVal) (c : Int) : Bool :=
  match v.decVal with
  | some x => decLt (c, 0) x
  | none => false

/-- An extracted DataFrame: the column list and the rows. -/
structure DataFrame where
  cols : List String
  rows : List Record
deriving DecidableEq, Repr

/-- `df[c]`: the column's cell values (missing binding = NaN). -/
def DataFrame.colVals (df : DataFrame) (c : String) : List PyVal :=
  df.rows.map (fun r => (r.get c).getD .pnan)

/-- `df['InvoiceDate'] = pd.to_datetime(...)`: replace the column with the
parsed timestamps. -/
def DataFrame.setDateCol (df : DataFrame) (ds : List Int) : DataFrame :=
  ⟨df.cols, (df.rows.zip ds).map (fun p => p.1.setCol "InvoiceDate" (.pdate p.2))⟩

/-- Behaviour of `pd.to_datetime` on a single value: a parsed timestamp or
a raised exception (its message).  External pandas behaviour, supplied as a
parameter. -/
structure PdEnv where
  parseDate : PyVal → Except String Int

/-- The validation thresholds from `__init__` (lines 62-67):
`min_records = 100`; `max_null_percentage = 0.1` (used via the exact
equivalence `cnt/n > 1/10 ↔ 10*cnt > n`); `max_price = 10000`;
`date_range = ('2009-01-01', '2012-12-31')`. -/
def min_records : Nat := 100

/-- `required_columns` (line 122). -/
def required_columns : List String :=
  ["InvoiceNo", "StockCode", "Quantity", "InvoiceDate", "UnitPrice", "Country"]

/-- A single-quote character (for Python `repr` of strings). -/
def sq : String := String.singleton (Char.ofNat 39)

/-- Python `repr` of a list of strings, e.g. `[−]` brackets with quoted,
comma-separated elements. -/
def pyListRepr (l : List String) : String :=
  "[" ++ String.intercalate ", " (l.map (fun s => sq ++ s ++ sq)) ++ "]"

/-- The result dict built by `validate_data_quality` (the `metrics` entry,
not referenced by any claim, is elided). -/
structure ValidationResult where
  is_valid : Bool
  total_records : Nat
  issues : List String
  warnings : List String
deriving DecidableEq, Repr

/-- The `InvoiceDate` step (lines 161-182): convert the column (mutating the
DataFrame), then compare min/max against the configured range; any exception
inside the inner `try` is caught at line 181, which appends an issue but
does **not** clear `is_valid`.  Returns (issues added, warnings added,
resulting DataFrame). -/
def dateStep (env : PdEnv) (df : DataFrame) :
    List String × List String × DataFrame :=
  if df.cols.contains "InvoiceDate" then
    match (df.colVals "InvoiceDate").mapM env.parseDate with
    | .error e => (["Date validation error: " ++ e], [], df)
    | .ok ds =>
      let df2 := df.setDateCol ds
      match env.parseDate (.pstr "2009-01-01") with
      | .error e => (["Date validation error: " ++ e], [], df2)
      | .ok cmin =>
        match env.parseDate (.pstr "2012-12-31") with
        | .error e => (["Date validation error: " ++ e], [], df2)
        | .ok cmax =>
          match ds.min?, ds.max? with
          | some mn, some mx =>
            ([], if mn < cmin || cmax < mx then ["Dates outside expected range"] else [], df2)
          | _, _ => ([], [], df2)
  else ([], [], df)

/-- `validate_data_quality`: the checks in source order.  `is_valid` is set
to `False` only by the minimum-record-count check (line 119) and the
missing-column check (line 126); the date-error handler (line 182) appends
an issue without touching `is_valid`.  The outer `except` (lines 198-201)
is unreachable in this model since only date parsing can raise.  Returns
the result together with the (possibly mutated) DataFrame. -/
def validate_data_quality (env : PdEnv) (df : DataFrame) :
    ValidationResult × DataFrame :=
  let n := df.rows.length
  let recIssues :=
    if n < min_records then
      ["Insufficient records: " ++ toString n ++ " < " ++ toString min_records]
    else []
  let missing := required_columns.filter (fun c => !(df.cols.contains c))
  let colIssues :=
    if missing.isEmpty then [] else ["Missing required columns: " ++ pyListRepr missing]
  let nullWarns := df.cols.filterMap (fun c =>
    if 10 * ((df.colVals c).countP (fun v => v == .pnan)) > n then
      some ("High null percentage in " ++ c) else none)
  let priceWarns :=
    if df.cols.contains "UnitPrice" then
      (if 0 < (df.colVals "UnitPrice").countP pyNeg then
        ["Found " ++ toString ((df.colVals "UnitPrice").countP pyNeg)
          ++ " records with negative prices"]
       else []) ++
      (if (df.colVals "UnitPrice").any (fun v => pyGtInt v 10000) then
        ["Unusually high price detected"] else [])
    else []
  let qtyWarns :=
    if df.cols.contains "Quantity" then
      if 0 < (df.colVals "Quantity").countP pyZero then
        ["Found " ++ toString ((df.colVals "Quantity").countP pyZero)
          ++ " records with zero quantity"]
      else []
    else []
  let dres := dateStep env df
  (⟨!(decide (n < min_records)) && missing.isEmpty,
    n,
    recIssues ++ colIssues ++ dres.1,
    nullWarns ++ priceWarns ++ qtyWarns ++ dres.2.1⟩,
   dres.2.2)

/-! ## Load Tracker and Orchestrator (lines 205-273, 391-485) -/

/-- `update_load_metadata` (lines 239-273): the UPDATE of
`bronze.load_metadata` runs inside `try`; a `SQLAlchemyError` raised by the
database (`dbOutcome = .error e`) is caught at line 272 and only logged:
the method returns normally either way. -/
def update_load_metadata (dbOutcome : Except String Unit) : Except String Unit :=
  match dbOutcome with
  | .ok _ => .ok ()
  | .error _ => .ok ()

/-- One terminal update issued to `bronze.load_metadata` (the non-key
fields set by `update_load_metadata`; `end_time` elided). -/
structure MetaUpdate where
  status : String
  records_loaded : Int
  records_failed : Int
  error_message : Option String
deriving DecidableEq, Repr

/-- Observable outcome of `ingest_retail_data`: the fields of the returned
`results` dict referenced by the claims, the final store contents, and the
list of terminal metadata updates issued. -/
structure IngestOutcome where
  status : String
  records_processed : Nat
  records_loaded : Int
  records_failed : Int
  error_message : Option String
  store : List String
  updates : List MetaUpdate
deriving DecidableEq, Repr

/-- `ingest_retail_data` (lines 391-485) for a readable, supported source
file whose contents are `df`, starting from store contents `store`:
create the STARTED metadata row, validate, abort to FAILED on a blocking
issue, otherwise load to Bronze and issue the single terminal update
(status `'COMPLETED'` in both the clean and the partial-failure branch,
lines 453 and 456). -/
def ingest_retail_data (env : PdEnv) (o : DbOracle) (df : DataFrame)
    (t : Int) (file_path load_id : String) (store : List String) :
    IngestOutcome :=
  let vres := validate_data_quality env df
  if !vres.1.is_valid then
    let msg := "Data validation failed: " ++ String.intercalate ", " vres.1.issues
    ⟨"FAILED", df.rows.length, 0, 0, some msg, store,
     [⟨"FAILED", 0, 0, some msg⟩]⟩
  else
    let lres := load_data_to_bronze o vres.2.rows t file_path load_id store
    if lres.records_failed == 0 then
      ⟨"COMPLETED", df.rows.length, lres.records_loaded, lres.records_failed,
       none, lres.store,
       [⟨"COMPLETED", lres.records_loaded, lres.records_failed, none⟩]⟩
    else
      ⟨"COMPLETED_WITH_ERRORS", df.rows.length, lres.records_loaded,
       lres.records_failed, none, lres.store,
       [⟨"COMPLETED", lres.records_loaded, lres.records_failed,
         some (toString lres.records_failed ++ " records failed to load")⟩]⟩

/-! ## Lemmas about chunking -/

theorem chunkListF_nil {α : Type} (f n : Nat) :
    chunkListF f n ([] : List α) = [] := by
  cases f <;> rfl

theorem chunkListF_succ_cons {α : Type} (f n : Nat) (x : α) (xs : List α) :
    chunkListF (f + 1) n (x :: xs) =
      (x :: xs).take n :: chunkListF f n ((x :: xs).drop n) := rfl

theorem chunkListF_congr {α : Type} (n : Nat) :
    ∀ (f1 f2 : Nat) (l : List α), l.length ≤ f1 → l.length ≤ f2 → 0 < n →
      chunkListF f1 n l = chunkListF f2 n l := by
  intro f1
  induction f1 with
  | zero =>
    intro f2 l h1 _ _
    have : l = [] := List.length_eq_zero.mp (Nat.le_zero.mp h1)
    subst this
    simp [chunkListF_nil]
  | succ f ih =>
    intro f2 l h1 h2 hn
    cases l with
    | nil => simp [chunkListF_nil]
    | cons x xs =>
      cases f2 with
      | zero => simp at h2
      | succ f2 =>
        rw [chunkListF_succ_cons, chunkListF_succ_cons]
        have hd : ((x :: xs).drop n).length ≤ f := by
          simp only [List.length_drop, List.length_cons]
          simp only [List.length_cons] at h1
          omega
        have hd2 : ((x :: xs).drop n).length ≤ f2 := by
          simp only [List.length_drop, List.length_cons]
          simp only [List.length_cons] at h2
          omega
        rw [ih f2 _ hd hd2 hn]

theorem chunkList_nil {α : Type} (n : Nat) : chunkList n ([] : List α) = [] := by
  unfold chunkList
  split <;> simp [chunkListF_nil]

theorem chunkList_cons_eq {α : Type} (n : Nat) (l : List α) (hn : 0 < n)
    (hl : l ≠ []) : chunkList n l = l.take n :: chunkList n (l.drop n) := by
  obtain ⟨x, xs, rfl⟩ := List.exists_cons_of_ne_nil hl
  unfold chunkList
  have hn0 : (n == 0) = false := by simp; omega
  simp only [hn0, Bool.false_eq_true, if_false, List.length_cons]
  rw [chunkListF_succ_cons]
  congr 1
  exact chunkListF_congr n _ _ _
    (by simp only [List.length_drop, List.length_cons]; omega)
    (le_refl _) hn

/-- Strong-induction principle following the recursion of `chunkList`. -/
theorem chunkList_induction {α : Type} (n : Nat) (hn : 0 < n)
    (P : List α → Prop) (hnil : P [])
    (hstep : ∀ l, l ≠ [] → P (l.drop n) → P l) :
    ∀ l, P l := by
  suffices h : ∀ (len : Nat) (l : List α), l.length = len → P l by
    intro l
    exact h l.length l rfl
  intro len
  induction len using Nat.strong_induction_on with
  | _ len ih =>
    intro l hlen
    rcases hnil2 : l with _ | ⟨x, xs⟩
    · exact hnil
    · rw [← hnil2]
      have hlne : l ≠ [] := by rw [hnil2]; simp
      refine hstep l hlne (ih (l.drop n).length ?_ _ rfl)
      have : 0 < l.length := List.length_pos.mpr hlne
      simp only [List.length_drop]
      omega

/-! ## Lemmas about the loading loop -/

theorem rowFold_spec (o : DbOracle) :
    ∀ (b : List Record) (st : LoadSt),
      b.foldl (rowStep o) st =
        ⟨st.loaded + (b.countP o.rowOk : Int),
         st.failed - (b.countP o.rowOk : Int),
         st.store ++ (b.filter o.rowOk).map generate_record_hash⟩ := by
  intro b
  induction b with
  | nil => intro st; simp
  | cons r rs ih =>
    intro st
    rcases hr : o.rowOk r with _ | _
    · simp only [List.foldl_cons, rowStep, hr, Bool.false_eq_true, if_false,
        List.countP_cons, List.filter_cons, ih]
      simp [hr]
    · simp only [List.foldl_cons, rowStep, hr, if_true, List.countP_cons,
        List.filter_cons, ih]
      simp only [hr, if_true, LoadSt.mk.injEq]
      refine ⟨by push_cast; ring, by push_cast; ring, by simp⟩

/-- The sum `records_loaded + records_failed` after the row-by-row fallback
equals its value before (each successful row moves one unit from `failed`
to `loaded`). -/
theorem rowFold_sum (o : DbOracle) (b : List Record) (st : LoadSt) :
    (b.foldl (rowStep o) st).loaded + (b.foldl (rowStep o) st).failed =
      st.loaded + st.failed := by
  rw [rowFold_spec]
  push_cast
  ring

/-- Each chunk contributes exactly its length to
`records_loaded + records_failed`, whatever the write outcomes. -/
theorem chunkStep_sum (o : DbOracle) (st : LoadSt) (b : List Record) :
    (chunkStep o st b).loaded + (chunkStep o st b).failed =
      st.loaded + st.failed + b.length := by
  unfold chunkStep
  rcases hb : o.bulkOk b with _ | _
  · simp only [hb, Bool.false_eq_true, if_false]
    rw [rowFold_sum]
    ring
  · simp only [hb, if_true]
    ring

theorem chunkFold_sum (o : DbOracle) :
    ∀ (l : List Record) (st : LoadSt),
      ((chunkList batch_size l).foldl (chunkStep o) st).loaded +
        ((chunkList batch_size l).foldl (chunkStep o) st).failed =
      st.loaded + st.failed + l.length := by
  have hbs : 0 < batch_size := by norm_num [batch_size]
  refine chunkList_induction batch_size hbs _ ?_ ?_
  · intro st
    simp [chunkList_nil]
  · intro l hlne ih st
    rw [chunkList_cons_eq batch_size l hbs hlne, List.foldl_cons]
    rw [ih _, chunkStep_sum]
    have : (l.take batch_size).length + (l.drop batch_size).length = l.length := by
      rw [← List.length_append, List.take_append_drop]
    omega

/-- Whenever the bulk write of a chunk fails, for any reason, the chunk is
retried row by row: exactly the individually-writable rows end up counted
as loaded and appended to the store, the rest counted as failed. -/
theorem chunkStep_of_bulkFail (o : DbOracle) (st : LoadSt) (b : List Record)
    (hb : o.bulkOk b = false) :
    chunkStep o st b =
      ⟨st.loaded + (b.countP o.rowOk : Int),
       st.failed + ((b.length : Int) - (b.countP o.rowOk : Int)),
       st.store ++ (b.filter o.rowOk).map generate_record_hash⟩ := by
  unfold chunkStep
  rw [hb]
  simp only [Bool.false_eq_true, if_false]
  rw [rowFold_spec]
  simp only [LoadSt.mk.injEq]
  refine ⟨by ring_nf, by ring_nf, by simp⟩

/-- Under the realistic coupling "a bulk write succeeds iff every row of the
chunk is individually writable", one chunk step counts exactly the good rows
as loaded, the bad rows as failed, and appends the good rows to the store. -/
theorem chunkStep_spec (o : DbOracle) (st : LoadSt) (b : List Record)
    (hb : o.bulkOk b = b.all o.rowOk) :
    chunkStep o st b =
      ⟨st.loaded + (b.countP o.rowOk : Int),
       st.failed + ((b.length : Int) - (b.countP o.rowOk : Int)),
       st.store ++ (b.filter o.rowOk).map generate_record_hash⟩ := by
  rcases hall : b.all o.rowOk with _ | _
  · rw [chunkStep_of_bulkFail o st b (by rw [hb, hall])]
  · unfold chunkStep
    rw [hb, hall]
    simp only [if_true]
    have hmem : ∀ x ∈ b, o.rowOk x = true := by
      simpa using List.all_eq_true.mp hall
    have hcnt : b.countP o.rowOk = b.length := List.countP_eq_length.mpr hmem
    have hfil : b.filter o.rowOk = b := List.filter_eq_self.mpr hmem
    rw [hcnt, hfil]
    simp only [LoadSt.mk.injEq]
    refine ⟨by ring_nf, by ring_nf, by simp⟩

/-- A chunk whose bulk write succeeds is counted and stored wholesale. -/
theorem chunkStep_of_bulkOk (o : DbOracle) (st : LoadSt) (b : List Record)
    (hb : o.bulkOk b = true) :
    chunkStep o st b =
      ⟨st.loaded + (b.length : Int), st.failed,
       st.store ++ b.map generate_record_hash⟩ := by
  unfold chunkStep
  rw [hb]
  simp

theorem chunkFold_spec (o : DbOracle)
    (h : ∀ b, o.bulkOk b = b.all o.rowOk) :
    ∀ (l : List Record) (st : LoadSt),
      (chunkList batch_size l).foldl (chunkStep o) st =
        ⟨st.loaded + (l.countP o.rowOk : Int),
         st.failed + ((l.length : Int) - (l.countP o.rowOk : Int)),
         st.store ++ (l.filter o.rowOk).map generate_record_hash⟩ := by
  have hbs : 0 < batch_size := by norm_num [batch_size]
  refine chunkList_induction batch_size hbs _ ?_ ?_
  · intro st
    simp [chunkList_nil]
  · intro l hlne ih st
    rw [chunkList_cons_eq batch_size l hbs hlne, List.foldl_cons,
      chunkStep_spec o st _ (h _), ih]
    have hlen : (l.take batch_size).length + (l.drop batch_size).length
        = l.length := by
      rw [← List.length_append, List.take_append_drop]
    have hcnt : (l.take batch_size).countP o.rowOk
        + (l.drop batch_size).countP o.rowOk = l.countP o.rowOk := by
      rw [← List.countP_append, List.take_append_drop]
    have hfil : (l.take batch_size).filter o.rowOk
        ++ (l.drop batch_size).filter o.rowOk = l.filter o.rowOk := by
      rw [← List.filter_append, List.take_append_drop]
    simp only [LoadSt.mk.injEq]
    refine ⟨by omega, by omega, ?_⟩
    rw [List.append_assoc, ← List.map_append, hfil]

/-- When every bulk write succeeds, each chunk is loaded wholesale. -/
theorem chunkFold_allOk (o : DbOracle) (h : ∀ b, o.bulkOk b = true) :
    ∀ (l : List Record) (st : LoadSt),
      (chunkList batch_size l).foldl (chunkStep o) st =
        ⟨st.loaded + (l.length : Int), st.failed,
         st.store ++ l.map generate_record_hash⟩ := by
  have hbs : 0 < batch_size := by norm_num [batch_size]
  refine chunkList_induction batch_size hbs _ ?_ ?_
  · intro st
    simp [chunkList_nil]
  · intro l hlne ih st
    rw [chunkList_cons_eq batch_size l hbs hlne, List.foldl_cons,
      chunkStep_of_bulkOk o st _ (h _), ih]
    have hlen : (l.take batch_size).length + (l.drop batch_size).length
        = l.length := by
      rw [← List.length_append, List.take_append_drop]
    simp only [LoadSt.mk.injEq]
    refine ⟨by omega, by simp, ?_⟩
    rw [List.append_assoc, ← List.map_append, List.take_append_drop]

/-- Closed form of `load_data_to_bronze` under the bulk/row coupling. -/
theorem load_data_to_bronze_spec (o : DbOracle)
    (h : ∀ b, o.bulkOk b = b.all o.rowOk) (df : List Record) (t : Int)
    (source_file load_id : String) (store : List String) :
    load_data_to_bronze o df t source_file load_id store =
      ⟨((toInsertRows df t source_file load_id store).countP o.rowOk : Int),
       ((toInsertRows df t source_file load_id store).length : Int) -
         ((toInsertRows df t source_file load_id store).countP o.rowOk : Int),
       (df.length : Int) -
         ((toInsertRows df t source_file load_id store).length : Int),
       store ++ ((toInsertRows df t source_file load_id store).filter
         o.rowOk).map generate_record_hash⟩ := by
  simp only [load_data_to_bronze]
  rw [chunkFold_spec o h]
  simp [bronzeRows]

/-- Closed form of `load_data_to_bronze` when every bulk write succeeds. -/
theorem load_data_to_bronze_allOk (o : DbOracle)
    (h : ∀ b, o.bulkOk b = true) (df : List Record) (t : Int)
    (source_file load_id : String) (store : List String) :
    load_data_to_bronze o df t source_file load_id store =
      ⟨((toInsertRows df t source_file load_id store).length : Int), 0,
       (df.length : Int) -
         ((toInsertRows df t source_file load_id store).length : Int),
       store ++ (toInsertRows df t source_file load_id store).map
         generate_record_hash⟩ := by
  simp only [load_data_to_bronze]
  rw [chunkFold_allOk o h]
  simp [bronzeRows]

theorem countP_replicate_eq {α : Type} (p : α → Bool) (n : Nat) (x : α) :
    (List.replicate n x).countP p = if p x then n else 0 := by
  induction n with
  | zero => simp
  | succ n ih =>
    rw [List.replicate_succ, List.countP_cons, ih]
    rcases h : p x with _ | _ <;> simp [h]

/-- Against an empty store nothing is filtered out as a duplicate. -/
theorem toInsertRows_empty_store (df : List Record) (t : Int)
    (source_file load_id : String) :
    toInsertRows df t source_file load_id [] =
      bronzeRows df t source_file load_id := by
  simp [toInsertRows]

/-! ## Claim C1 -/

/-- C1: for every input DataFrame presented to the Dedup Loader, whatever
the outcome of each bulk and row write, after `load_data_to_bronze` returns
(on its normal path), `records_loaded + records_failed + skipped-duplicates`
equals the number of records presented. -/
theorem claim_C1_status_totals (o : DbOracle) (df : List Record) (t : Int)
    (source_file load_id : String) (store : List String) :
    (load_data_to_bronze o df t source_file load_id store).records_loaded +
      (load_data_to_bronze o df t source_file load_id store).records_failed +
      (load_data_to_bronze o df t source_file load_id store).skipped =
      (df.length : Int) := by
  simp only [load_data_to_bronze]
  have hsum := chunkFold_sum o (toInsertRows df t source_file load_id store)
    ⟨0, 0, store⟩
  simp only at hsum
  have hlen : (bronzeRows df t source_file load_id).length = df.length := by
    simp [bronzeRows]
  rw [hlen]
  omega

/-! ## Claim C2 -/

/-- A sample valid retail row (canonical column names, as after renaming). -/
def goodRow : Record :=
  [("invoice", .pstr "536365"), ("stock_code", .pstr "85123A"),
   ("description", .pstr "WHITE HANGING HEART T-LIGHT HOLDER"),
   ("quantity", .pint 6), ("invoice_date", .pstr "2010-12-01 08:26:00"),
   ("unit_price", .pfloat 2 "55"), ("customer_id", .pint 17850),
   ("country", .pstr "United Kingdom")]

/-- A row that violates a storage constraint (its individual insert fails). -/
def badRow : Record :=
  [("invoice", .pstr "536366"), ("stock_code", .pstr "BAD"),
   ("quantity", .pint 1), ("invoice_date", .pstr "2010-12-01 08:28:00"),
   ("unit_price", .pint 3), ("customer_id", .pint 17850),
   ("country", .pstr "United Kingdom")]

/-- Row-write success for the C2 scenario: every row goes in except the one
violating the constraint. -/
def c2RowOk (r : Record) : Bool := !(r.getStr "stock_code" == "BAD")

/-- Database behaviour for the C2 scenario: a bulk chunk write succeeds iff
every row of the chunk is individually writable. -/
def c2Oracle : DbOracle := ⟨fun b => b.all c2RowOk, c2RowOk⟩

/-- The C2 input: 10,000 valid records plus 1 record violating a storage
constraint. -/
def c2Df : List Record := List.replicate 10000 goodRow ++ [badRow]

/-- C2: (i) whenever a bulk chunk write fails, the chunk is retried row by
row — each row succeeding individually is counted in `records_loaded` and
written, each row failing individually is counted in `records_failed`, and
the remaining rows of the chunk are still attempted; (ii) when bulk writes
fail exactly on chunks containing an unwritable row, the whole load counts
exactly the individually-good rows as loaded and the bad ones as failed,
later chunks proceeding; in particular for 10,000 valid records plus 1
constraint-violating record it reports `records_loaded = 10000` and
`records_failed = 1`. -/
theorem claim_C2_fault_isolation :
    (∀ (o : DbOracle) (st : LoadSt) (b : List Record),
      o.bulkOk b = false →
      chunkStep o st b =
        ⟨st.loaded + (b.countP o.rowOk : Int),
         st.failed + ((b.length : Int) - (b.countP o.rowOk : Int)),
         st.store ++ (b.filter o.rowOk).map generate_record_hash⟩) ∧
    (∀ (o : DbOracle), (∀ b, o.bulkOk b = b.all o.rowOk) →
      ∀ (df : List Record) (t : Int) (source_file load_id : String)
        (store : List String),
        (load_data_to_bronze o df t source_file load_id store).records_loaded
          = ((toInsertRows df t source_file load_id store).countP o.rowOk
              : Int) ∧
        (load_data_to_bronze o df t source_file load_id store).records_failed
          = ((toInsertRows df t source_file load_id store).length : Int) -
            ((toInsertRows df t source_file load_id store).countP o.rowOk
              : Int) ∧
        (load_data_to_bronze o df t source_file load_id store).store
          = store ++ ((toInsertRows df t source_file load_id store).filter
              o.rowOk).map generate_record_hash) ∧
    (load_data_to_bronze c2Oracle c2Df 0 "file" "load" []).records_loaded
        = 10000 ∧
    (load_data_to_bronze c2Oracle c2Df 0 "file" "load" []).records_failed
        = 1 := by
  have hgen : ∀ (o : DbOracle), (∀ b, o.bulkOk b = b.all o.rowOk) →
      ∀ (df : List Record) (t : Int) (source_file load_id : String)
        (store : List String),
        (load_data_to_bronze o df t source_file load_id store).records_loaded
          = ((toInsertRows df t source_file load_id store).countP o.rowOk
              : Int) ∧
        (load_data_to_bronze o df t source_file load_id store).records_failed
          = ((toInsertRows df t source_file load_id store).length : Int) -
            ((toInsertRows df t source_file load_id store).countP o.rowOk
              : Int) ∧
        (load_data_to_bronze o df t source_file load_id store).store
          = store ++ ((toInsertRows df t source_file load_id store).filter
              o.rowOk).map generate_record_hash := by
    intro o h df t source_file load_id store
    rw [load_data_to_bronze_spec o h]
    exact ⟨rfl, rfl, rfl⟩
  have hti : toInsertRows c2Df 0 "file" "load" [] =
      List.replicate 10000 (withAudit 0 "file" "load" (renameRecord goodRow))
        ++ [withAudit 0 "file" "load" (renameRecord badRow)] := by
    rw [toInsertRows_empty_store]
    unfold bronzeRows c2Df
    rw [List.map_append, List.map_replicate]
    rfl
  have h1 : c2Oracle.rowOk (withAudit 0 "file" "load" (renameRecord goodRow))
      = true := by decide
  have h2 : c2Oracle.rowOk (withAudit 0 "file" "load" (renameRecord badRow))
      = false := by decide
  have hcnt : (toInsertRows c2Df 0 "file" "load" []).countP c2Oracle.rowOk
      = 10000 := by
    rw [hti, List.countP_append, countP_replicate_eq, h1]
    simp [List.countP_cons, h2]
  have hlen : (toInsertRows c2Df 0 "file" "load" []).length = 10001 := by
    rw [hti, List.length_append, List.length_replicate]
    rfl
  refine ⟨fun o st b hb => chunkStep_of_bulkFail o st b hb, hgen, ?_, ?_⟩
  · rw [(hgen c2Oracle (fun b => rfl) c2Df 0 "file" "load" []).1, hcnt]
    norm_num
  · rw [(hgen c2Oracle (fun b => rfl) c2Df 0 "file" "load" []).2.1, hcnt,
      hlen]
    norm_num

/-- A one-row chunk whose bulk write fails under `c2Oracle`. -/
def c2BadChunk : List Record :=
  [withAudit 0 "file" "load" (renameRecord badRow)]

/-- Witness for C2: part (i) applied to a concrete chunk whose bulk write
fails, and the general conclusion instantiated at `c2Oracle` (whose bulk
outcome is by definition `all rowOk`) together with the concrete counts at
the 10,001-record input. -/
theorem claim_C2_fault_isolation_witness :
    (c2Oracle.bulkOk c2BadChunk = false) ∧
    (chunkStep c2Oracle ⟨0, 0, []⟩ c2BadChunk =
      ⟨0 + (c2BadChunk.countP c2Oracle.rowOk : Int),
       0 + ((c2BadChunk.length : Int)
         - (c2BadChunk.countP c2Oracle.rowOk : Int)),
       [] ++ (c2BadChunk.filter c2Oracle.rowOk).map generate_record_hash⟩)
    ∧ ((load_data_to_bronze c2Oracle c2Df 0 "file" "load" []).records_loaded
      = ((toInsertRows c2Df 0 "file" "load" []).countP c2Oracle.rowOk : Int))
    ∧ (load_data_to_bronze c2Oracle c2Df 0 "file" "load" []).records_loaded
        = 10000
    ∧ (load_data_to_bronze c2Oracle c2Df 0 "file" "load" []).records_failed
        = 1 := by
  have hb : c2Oracle.bulkOk c2BadChunk = false := by decide
  exact ⟨hb, claim_C2_fault_isolation.1 c2Oracle ⟨0, 0, []⟩ c2BadChunk hb,
    (claim_C2_fault_isolation.2.1 c2Oracle (fun _ => rfl) c2Df 0 "file"
      "load" []).1,
    claim_C2_fault_isolation.2.2.1, claim_C2_fault_isolation.2.2.2⟩

/-! ## Hash lemmas: the digest depends only on the six hashed fields -/

/-- `find?` for a key other than `k` ignores both the removal of `k` and
the appended `(k, v)` binding. -/
theorem find?_setCol_ne (k k2 : String) (v : PyVal) (hne : k2 ≠ k) :
    ∀ r : Record,
      List.find? (fun p => p.1 == k2)
          (r.filter (fun p => !(p.1 == k)) ++ [(k, v)]) =
        List.find? (fun p => p.1 == k2) r := by
  have hkv : ((k, v).1 == k2) = false := by
    simp only [beq_eq_false_iff_ne, ne_eq]
    exact fun hc => hne hc.symm
  intro r
  induction r with
  | nil =>
    simp only [List.filter_nil, List.nil_append, List.find?, hkv]
  | cons p ps ih =>
    rcases hq : (p.1 == k2) with _ | _
    · rcases hpk : (p.1 == k) with _ | _
      · simp only [List.filter_cons, hpk, Bool.not_false, if_true,
          List.cons_append, List.find?, hq]
        exact ih
      · simp only [List.filter_cons, hpk, Bool.not_true, Bool.false_eq_true,
          if_false, List.find?, hq]
        exact ih
    · have hpk : (p.1 == k) = false := by
        have hp2 : p.1 = k2 := by
          have := hq
          simpa [beq_iff_eq] using this
        simp only [beq_eq_false_iff_ne, ne_eq, hp2]
        exact hne
      simp only [List.filter_cons, hpk, Bool.not_false, if_true,
        List.cons_append, List.find?, hq]

/-- Looking up a key other than `k` is unaffected by `df[k] = v`. -/
theorem get_setCol_ne (r : Record) (k k2 : String) (v : PyVal)
    (hne : k2 ≠ k) : (Record.setCol r k v).get k2 = r.get k2 := by
  unfold Record.get Record.setCol
  rw [find?_setCol_ne k k2 v hne r]

/-- Looking up any key other than the three audit columns is unaffected by
adding the audit columns. -/
theorem getStr_withAudit (r : Record) (t : Int) (sf lid : String)
    (k : String) (h1 : k ≠ "load_timestamp") (h2 : k ≠ "source_file")
    (h3 : k ≠ "load_id") :
    (withAudit t sf lid r).getStr k = r.getStr k := by
  unfold withAudit Record.getStr
  rw [get_setCol_ne _ _ _ _ h3, get_setCol_ne _ _ _ _ h2,
    get_setCol_ne _ _ _ _ h1]

/-- The six source fields hashed by `generate_record_hash` (lines 82-89). -/
def hashFields : List String :=
  ["invoice", "stock_code", "quantity", "invoice_date", "unit_price",
   "customer_id"]

/-- Two records agreeing (as strings) on the six hashed fields produce the
same joined hash-input string. -/
theorem record_str_eq_of_fields (r1 r2 : Record)
    (h : ∀ k ∈ hashFields, r1.getStr k = r2.getStr k) :
    record_str r1 = record_str r2 := by
  unfold record_str
  rw [h "invoice" (by simp [hashFields]),
    h "stock_code" (by simp [hashFields]),
    h "quantity" (by simp [hashFields]),
    h "invoice_date" (by simp [hashFields]),
    h "unit_price" (by simp [hashFields]),
    h "customer_id" (by simp [hashFields])]

/-- The lineage/audit columns are excluded from the hash input: the digest
of a row with audit columns equals the digest without them. -/
theorem hash_withAudit (t : Int) (sf lid : String) (r : Record) :
    generate_record_hash (withAudit t sf lid r) = generate_record_hash r := by
  unfold generate_record_hash
  refine congrArg sha256hex (record_str_eq_of_fields _ _ ?_)
  intro k hk
  fin_cases hk <;>
    exact getStr_withAudit r t sf lid _ (by decide) (by decide) (by decide)

/-- The hashes written by a clean first run over an empty store are exactly
the hashes of the renamed input rows, with lineage ignored. -/
theorem bronzeRows_hashes (df : List Record) (t : Int) (sf lid : String) :
    (bronzeRows df t sf lid).map generate_record_hash =
      df.map (fun r => generate_record_hash (renameRecord r)) := by
  unfold bronzeRows
  rw [List.map_map]
  exact List.map_congr_left (fun r _ => hash_withAudit t sf lid _)

/-! ## Claim C3 -/

/-- C3: ingesting the same rows twice is idempotent.  With every write
succeeding and the input's logical records pairwise distinct (distinct
content hashes), the first run over an empty store loads all `N` records
and skips none; the second run over the resulting store loads `0`, skips
all `N`, and leaves the store unchanged (no record is written twice), and
the store holds pairwise-distinct hashes.  The lineage parameters of the
two runs may differ arbitrarily. -/
theorem claim_C3_idempotence (o : DbOracle) (h : ∀ b, o.bulkOk b = true)
    (df : List Record) (t1 t2 : Int) (sf1 sf2 lid1 lid2 : String)
    (hnodup : (df.map (fun r => generate_record_hash (renameRecord r))).Nodup) :
    (load_data_to_bronze o df t1 sf1 lid1 []).records_loaded = df.length ∧
    (load_data_to_bronze o df t1 sf1 lid1 []).records_failed = 0 ∧
    (load_data_to_bronze o df t1 sf1 lid1 []).skipped = 0 ∧
    (load_data_to_bronze o df t2 sf2 lid2
      (load_data_to_bronze o df t1 sf1 lid1 []).store).records_loaded = 0 ∧
    (load_data_to_bronze o df t2 sf2 lid2
      (load_data_to_bronze o df t1 sf1 lid1 []).store).records_failed = 0 ∧
    (load_data_to_bronze o df t2 sf2 lid2
      (load_data_to_bronze o df t1 sf1 lid1 []).store).skipped = df.length ∧
    (load_data_to_bronze o df t2 sf2 lid2
      (load_data_to_bronze o df t1 sf1 lid1 []).store).store =
      (load_data_to_bronze o df t1 sf1 lid1 []).store ∧
    (load_data_to_bronze o df t1 sf1 lid1 []).store.Nodup := by
  have hrun1 := load_data_to_bronze_allOk o h df t1 sf1 lid1 []
  rw [toInsertRows_empty_store] at hrun1
  have hlen1 : (bronzeRows df t1 sf1 lid1).length = df.length := by
    simp [bronzeRows]
  have hstore1 : (load_data_to_bronze o df t1 sf1 lid1 []).store =
      df.map (fun r => generate_record_hash (renameRecord r)) := by
    rw [hrun1]
    simpa using bronzeRows_hashes df t1 sf1 lid1
  have hti2 : toInsertRows df t2 sf2 lid2
      (load_data_to_bronze o df t1 sf1 lid1 []).store = [] := by
    unfold toInsertRows
    rw [List.filter_eq_nil_iff]
    intro r hr
    obtain ⟨x, hx, rfl⟩ := List.mem_map.mp hr
    have hmem : generate_record_hash (withAudit t2 sf2 lid2 (renameRecord x))
        ∈ df.map (fun r => generate_record_hash (renameRecord r)) := by
      rw [hash_withAudit]
      exact List.mem_map.mpr ⟨x, hx, rfl⟩
    simp only [Bool.not_eq_true, List.contains]
    rw [hstore1, List.elem_eq_true_of_mem hmem]
    rfl
  have hrun2 := load_data_to_bronze_allOk o h df t2 sf2 lid2
    (load_data_to_bronze o df t1 sf1 lid1 []).store
  rw [hti2] at hrun2
  refine ⟨?_, ?_, ?_, ?_, ?_, ?_, ?_, ?_⟩
  · rw [hrun1]
    simp [hlen1]
  · rw [hrun1]
  · rw [hrun1]
    simp [hlen1]
  · rw [hrun2]
    simp
  · rw [hrun2]
  · rw [hrun2]
    simp
  · rw [hrun2]
    simp
  · rw [hstore1]
    exact hnodup

/-- A first raw source row (source column names, as read from the file). -/
def srcRow1 : Record :=
  [("InvoiceNo", .pstr "536365"), ("StockCode", .pstr "85123A"),
   ("Description", .pstr "WHITE HANGING HEART T-LIGHT HOLDER"),
   ("Quantity", .pint 6), ("InvoiceDate", .pstr "2010-12-01 08:26:00"),
   ("UnitPrice", .pfloat 2 "55"), ("CustomerID", .pint 17850),
   ("Country", .pstr "United Kingdom")]

/-- A second raw source row with different content. -/
def srcRow2 : Record :=
  [("InvoiceNo", .pstr "536367"), ("StockCode", .pstr "84406B"),
   ("Description", .pstr "CREAM CUPID HEARTS COAT HANGER"),
   ("Quantity", .pint 8), ("InvoiceDate", .pstr "2010-12-01 08:34:00"),
   ("UnitPrice", .pfloat 2 "75"), ("CustomerID", .pint 13047),
   ("Country", .pstr "United Kingdom")]

/-- Database behaviour with every write succeeding. -/
def allOkOracle : DbOracle := ⟨fun _ => true, fun _ => true⟩

set_option maxRecDepth 1000000 in
/-- Witness for C3: the idempotence theorem applied to a concrete two-row
file; the distinct-hash hypothesis is discharged by computing both
digests. -/
theorem claim_C3_idempotence_witness :
    (([srcRow1, srcRow2].map
        (fun r => generate_record_hash (renameRecord r))).Nodup) ∧
    ((load_data_to_bronze allOkOracle [srcRow1, srcRow2] 0 "f1" "l1"
        []).records_loaded = (([srcRow1, srcRow2] : List Record).length : Int))
    ∧ ((load_data_to_bronze allOkOracle [srcRow1, srcRow2] 1 "f2" "l2"
        (load_data_to_bronze allOkOracle [srcRow1, srcRow2] 0 "f1" "l1"
          []).store).records_loaded = 0)
    ∧ ((load_data_to_bronze allOkOracle [srcRow1, srcRow2] 1 "f2" "l2"
        (load_data_to_bronze allOkOracle [srcRow1, srcRow2] 0 "f1" "l1"
          []).store).skipped
        = (([srcRow1, srcRow2] : List Record).length : Int))
    ∧ ((load_data_to_bronze allOkOracle [srcRow1, srcRow2] 1 "f2" "l2"
        (load_data_to_bronze allOkOracle [srcRow1, srcRow2] 0 "f1" "l1"
          []).store).store
        = (load_data_to_bronze allOkOracle [srcRow1, srcRow2] 0 "f1" "l1"
          []).store) := by
  have hnd : (([srcRow1, srcRow2].map
      (fun r => generate_record_hash (renameRecord r))).Nodup) := by decide
  have H := claim_C3_idempotence allOkOracle (fun _ => rfl) [srcRow1, srcRow2]
    0 1 "f1" "f2" "l1" "l2" hnd
  exact ⟨hnd, H.1, H.2.2.2.1, H.2.2.2.2.2.1, H.2.2.2.2.2.2.1⟩

/-! ## Claim C10 -/

/-- C10: the hash reads only the six fields `invoice`, `stock_code`,
`quantity`, `invoice_date`, `unit_price`, `customer_id`.  Records agreeing
on them (after renaming) hash identically even if `description`/`country`
differ, and a record whose hash is already in the store is silently
dropped by the dedup filter of a later load: counted as skipped, not
loaded, and not written. -/
theorem claim_C10_hash_six_fields (r1 r2 : Record)
    (hagree : ∀ k ∈ hashFields,
      (renameRecord r1).get k = (renameRecord r2).get k) :
    generate_record_hash (renameRecord r1)
      = generate_record_hash (renameRecord r2) ∧
    ∀ (o : DbOracle) (store : List String) (t : Int) (sf lid : String),
      generate_record_hash (renameRecord r1) ∈ store →
      (load_data_to_bronze o [r2] t sf lid store).records_loaded = 0 ∧
      (load_data_to_bronze o [r2] t sf lid store).skipped = 1 ∧
      (load_data_to_bronze o [r2] t sf lid store).store = store := by
  have hstr : ∀ k ∈ hashFields,
      (renameRecord r1).getStr k = (renameRecord r2).getStr k := by
    intro k hk
    unfold Record.getStr
    rw [hagree k hk]
  have hhash : generate_record_hash (renameRecord r1)
      = generate_record_hash (renameRecord r2) :=
    congrArg sha256hex (record_str_eq_of_fields _ _ hstr)
  refine ⟨hhash, ?_⟩
  intro o store t sf lid hmem
  have hti : toInsertRows [r2] t sf lid store = [] := by
    unfold toInsertRows bronzeRows
    simp only [List.map_cons, List.map_nil]
    rw [List.filter_eq_nil_iff]
    intro r hr
    simp only [List.mem_singleton] at hr
    subst hr
    simp only [Bool.not_eq_true, List.contains]
    rw [hash_withAudit, ← hhash, List.elem_eq_true_of_mem hmem]
    rfl
  simp only [load_data_to_bronze]
  rw [hti, chunkList_nil]
  simp [bronzeRows]

/-- `srcRow1` with a different description and country but the same six
hashed fields. -/
def srcRow1Alt : Record :=
  [("InvoiceNo", .pstr "536365"), ("StockCode", .pstr "85123A"),
   ("Description", .pstr "COMPLETELY DIFFERENT DESCRIPTION"),
   ("Quantity", .pint 6), ("InvoiceDate", .pstr "2010-12-01 08:26:00"),
   ("UnitPrice", .pfloat 2 "55"), ("CustomerID", .pint 17850),
   ("Country", .pstr "France")]

/-- Witness for C10: `srcRow1` and `srcRow1Alt` differ in description and
country yet hash identically, and after `srcRow1` is stored, loading
`srcRow1Alt` skips it as a duplicate and writes nothing. -/
theorem claim_C10_hash_six_fields_witness :
    (generate_record_hash (renameRecord srcRow1)
      = generate_record_hash (renameRecord srcRow1Alt)) ∧
    ((load_data_to_bronze allOkOracle [srcRow1Alt] 5 "f3" "l3"
        [generate_record_hash (renameRecord srcRow1)]).records_loaded = 0) ∧
    ((load_data_to_bronze allOkOracle [srcRow1Alt] 5 "f3" "l3"
        [generate_record_hash (renameRecord srcRow1)]).skipped = 1) ∧
    ((load_data_to_bronze allOkOracle [srcRow1Alt] 5 "f3" "l3"
        [generate_record_hash (renameRecord srcRow1)]).store
      = [generate_record_hash (renameRecord srcRow1)]) := by
  have H := claim_C10_hash_six_fields srcRow1 srcRow1Alt (by decide)
  have H2 := H.2 allOkOracle [generate_record_hash (renameRecord srcRow1)]
    5 "f3" "l3" (List.mem_singleton.mpr rfl)
  exact ⟨H.1, H2.1, H2.2.1, H2.2.2⟩

/-! ## Claim C9 -/

/-- Equality of two exact decimal values `(num, e) ↦ num / 10^e`. -/
def decValEq (x y : Int × Nat) : Bool :=
  x.1 * (10 : Int) ^ y.2 == y.1 * (10 : Int) ^ x.2

/-- A canonical-form record whose quantity is the Python int `5`. -/
def qRowInt : Record :=
  [("invoice", .pstr "536365"), ("stock_code", .pstr "85123A"),
   ("quantity", .pint 5), ("invoice_date", .pstr "2010-12-01 08:26:00"),
   ("unit_price", .pstr "2.55"), ("customer_id", .pint 17850)]

/-- The same record except the quantity is the Python float `5.0`,
denoting the same logical quantity. -/
def qRowFloat : Record :=
  [("invoice", .pstr "536365"), ("stock_code", .pstr "85123A"),
   ("quantity", .pfloat 5 "0"), ("invoice_date", .pstr "2010-12-01 08:26:00"),
   ("unit_price", .pstr "2.55"), ("customer_id", .pint 17850)]

set_option maxRecDepth 1000000 in
/-- Counterexample to C9: `qRowInt` and `qRowFloat` agree on all hashed
fields except that the quantity is int `5` in one and float `5.0` in the
other — the same logical value (5 = 5.0 exactly) — yet the hash inputs are
`"...|5|..."` versus `"...|5.0|..."` and the two SHA-256 digests differ:
no numeric canonicalization happens before hashing. -/
theorem claim_C9_counterexample :
    (decValEq (((PyVal.pint 5).decVal).getD (0, 0))
        (((PyVal.pfloat 5 "0").decVal).getD (0, 0)) = true) ∧
    (PyVal.pint 5).str = "5" ∧ (PyVal.pfloat 5 "0").str = "5.0" ∧
    generate_record_hash qRowInt ≠ generate_record_hash qRowFloat := by
  refine ⟨by decide, rfl, rfl, by decide⟩

/-- C9 (amended): the hash canonicalizes nothing — each of the six fields
is rendered with Python `str()` as-is, and two records hash identically
whenever the six rendered field strings coincide (in particular the digest
is a function of those strings alone; int `5` and float `5.0` render
differently and therefore hash differently, as the counterexample shows). -/
theorem claim_C9_amended_str_determines_hash (r1 r2 : Record)
    (h : ∀ k ∈ hashFields, r1.getStr k = r2.getStr k) :
    generate_record_hash r1 = generate_record_hash r2 :=
  congrArg sha256hex (record_str_eq_of_fields r1 r2 h)

/-- `qRowInt` with only the non-hashed description field changed. -/
def qRowIntAlt : Record :=
  [("invoice", .pstr "536365"), ("stock_code", .pstr "85123A"),
   ("quantity", .pint 5), ("invoice_date", .pstr "2010-12-01 08:26:00"),
   ("unit_price", .pstr "2.55"), ("customer_id", .pint 17850),
   ("description", .pstr "SOMETHING ELSE")]

/-- Witness for the amended C9 at two concrete records with equal rendered
hash fields. -/
theorem claim_C9_amended_str_determines_hash_witness :
    generate_record_hash qRowInt = generate_record_hash qRowIntAlt :=
  claim_C9_amended_str_determines_hash qRowInt qRowIntAlt (by decide)

/-! ## Concrete pandas environment and DataFrames for the validator claims -/

/-- A concrete `pd.to_datetime` behaviour: the dataset timestamps and the
two configured bounds parse; `"bad-date"` raises. -/
def testEnv : PdEnv :=
  ⟨fun v =>
    match v with
    | .pdate d => .ok d
    | .pstr "2009-01-01" => .ok 0
    | .pstr "2012-12-31" => .ok 1460
    | .pstr "2010-12-01 08:26:00" => .ok 700
    | .pstr "bad-date" => .error "Unknown datetime string format"
    | _ => .error "could not parse"⟩

/-- A raw source row with the exact required columns and benign values. -/
def okSrcRow : Record :=
  [("InvoiceNo", .pstr "536365"), ("StockCode", .pstr "85123A"),
   ("Quantity", .pint 6), ("InvoiceDate", .pstr "2010-12-01 08:26:00"),
   ("UnitPrice", .pint 2), ("Country", .pstr "United Kingdom")]

/-- `okSrcRow` with an unparseable `InvoiceDate`. -/
def badDateSrcRow : Record :=
  [("InvoiceNo", .pstr "536999"), ("StockCode", .pstr "85123A"),
   ("Quantity", .pint 6), ("InvoiceDate", .pstr "bad-date"),
   ("UnitPrice", .pint 2), ("Country", .pstr "United Kingdom")]

/-- `okSrcRow` with a stock code that violates a storage constraint under
`c2Oracle`. -/
def badStockSrcRow : Record :=
  [("InvoiceNo", .pstr "536998"), ("StockCode", .pstr "BAD"),
   ("Quantity", .pint 6), ("InvoiceDate", .pstr "2010-12-01 08:26:00"),
   ("UnitPrice", .pint 2), ("Country", .pstr "United Kingdom")]

/-- A three-row file (below the 100-record minimum). -/
def smallDf : DataFrame :=
  ⟨required_columns, List.replicate 3 okSrcRow⟩

/-- A file whose headers match the required columns only up to letter
case. -/
def lcDf : DataFrame :=
  ⟨["invoiceno", "stockcode", "quantity", "invoicedate", "unitprice",
    "country"], []⟩

/-- ASCII lower-casing of one character. -/
def lowerChar (c : Char) : Char :=
  if 65 ≤ c.toNat && c.toNat ≤ 90 then Char.ofNat (c.toNat + 32) else c

/-- ASCII lower-casing of a string (kernel-evaluable). -/
def lowerStr (s : String) : String := String.mk (s.data.map lowerChar)

/-- 100 valid rows except one with an unparseable date. -/
def c6Df : DataFrame :=
  ⟨required_columns, List.replicate 99 okSrcRow ++ [badDateSrcRow]⟩

/-- 100 rows passing validation, one of which violates a storage
constraint at load time. -/
def c4Df : DataFrame :=
  ⟨required_columns, List.replicate 99 okSrcRow ++ [badStockSrcRow]⟩

/-- A small file with the exact required column names. -/
def exactColsDf : DataFrame :=
  ⟨required_columns, List.replicate 3 okSrcRow⟩

/-! ## Claim C7 -/

/-- C7: a file with fewer than the configured minimum record count never
reaches the Dedup Loader: validation yields a blocking issue, the run
aborts before any write (the store is unchanged), the returned status is
FAILED, and the single terminal update issued finalizes the LoadAttempt as
FAILED. -/
theorem claim_C7_validation_gating (env : PdEnv) (o : DbOracle)
    (df : DataFrame) (t : Int) (file_path load_id : String)
    (store : List String) (hmin : df.rows.length < min_records) :
    (ingest_retail_data env o df t file_path load_id store).status = "FAILED"
    ∧ (ingest_retail_data env o df t file_path load_id store).store = store
    ∧ (ingest_retail_data env o df t file_path load_id
        store).records_loaded = 0
    ∧ (ingest_retail_data env o df t file_path load_id store).updates =
        [⟨"FAILED", 0, 0,
          some ("Data validation failed: " ++ String.intercalate ", "
            (validate_data_quality env df).1.issues)⟩] := by
  have hvalid : (validate_data_quality env df).1.is_valid = false := by
    simp only [validate_data_quality]
    rw [decide_eq_true hmin]
    simp
  simp only [ingest_retail_data]
  rw [hvalid]
  simp

/-- Witness for C7 at a concrete three-row file. -/
theorem claim_C7_validation_gating_witness :
    (ingest_retail_data testEnv allOkOracle smallDf 0 "p" "l" []).status
      = "FAILED"
    ∧ (ingest_retail_data testEnv allOkOracle smallDf 0 "p" "l" []).store
      = []
    ∧ (ingest_retail_data testEnv allOkOracle smallDf 0 "p" "l"
        []).records_loaded = 0 := by
  have H := claim_C7_validation_gating testEnv allOkOracle smallDf 0 "p" "l"
    [] (by decide)
  exact ⟨H.1, H.2.1, H.2.2.1⟩

/-! ## Claim C8 -/

/-- C8 (amended): the required-column presence check is case-sensitive
(exact string membership, line 123).  When every required name is present
verbatim, the issues list contains no missing-column entry — it consists
exactly of the record-count issue (if any) and the date issues (if any).
A file whose headers match the required names only up to letter case gets
the blocking missing-column issue and is rejected. -/
theorem claim_C8_amended_case_sensitive :
    (∀ (env : PdEnv) (df : DataFrame),
      required_columns.all (fun c => df.cols.contains c) = true →
      (validate_data_quality env df).1.issues =
        (if df.rows.length < min_records then
          ["Insufficient records: " ++ toString df.rows.length ++ " < "
            ++ toString min_records]
         else []) ++ (dateStep env df).1) ∧
    (required_columns.all
      (fun c => lcDf.cols.contains (lowerStr c)) = true) ∧
    (("Missing required columns: " ++ pyListRepr required_columns)
      ∈ (validate_data_quality testEnv lcDf).1.issues) ∧
    (validate_data_quality testEnv lcDf).1.is_valid = false := by
  refine ⟨?_, by decide, by decide, by decide⟩
  intro env df hall
  have hm : required_columns.filter (fun c => !(df.cols.contains c)) = [] := by
    rw [List.filter_eq_nil_iff]
    intro c hc
    have hmem : c ∈ df.cols := by
      have hthis := List.all_eq_true.mp hall c hc
      simpa using hthis
    simp [hmem]
  simp only [validate_data_quality, hm]
  simp

/-- Witness for the universally quantified part of the amended C8, at a
file with the exact required headers. -/
theorem claim_C8_amended_case_sensitive_witness :
    (validate_data_quality testEnv exactColsDf).1.issues =
      (if exactColsDf.rows.length < min_records then
        ["Insufficient records: " ++ toString exactColsDf.rows.length
          ++ " < " ++ toString min_records]
       else []) ++ (dateStep testEnv exactColsDf).1 :=
  claim_C8_amended_case_sensitive.1 testEnv exactColsDf (by decide)

/-- Counterexample to C8 as stated: `lcDf` contains every required column
up to letter case, yet the Validator emits the blocking missing-column
issue (naming all six required columns) and invalidates the file — the
check is exact, not case-insensitive. -/
theorem claim_C8_counterexample :
    (required_columns.all (fun c => lcDf.cols.contains (lowerStr c)) = true) ∧
    (("Missing required columns: " ++ pyListRepr required_columns)
      ∈ (validate_data_quality testEnv lcDf).1.issues) ∧
    (validate_data_quality testEnv lcDf).1.is_valid = false := by
  refine ⟨by decide, by decide, by decide⟩

/-! ## Claim C6 -/

/-- C6 exhibit (the code violates the claimed iff): on a 100-row file with
all required columns where one `InvoiceDate` value fails to parse, the
date-error handler (line 182) appends a blocking issue but never clears
`is_valid`; the produced ValidationResult has a non-empty issues list yet
`is_valid = true`. -/
theorem claim_C6_code_bug_exhibit :
    (validate_data_quality testEnv c6Df).1.is_valid = true ∧
    (validate_data_quality testEnv c6Df).1.issues
      = ["Date validation error: Unknown datetime string format"] := by
  refine ⟨by decide, by decide⟩

/-! ## Claim C4 -/

set_option maxRecDepth 1000000 in
/-- C4 exhibit: a validated 100-row file with one row failing at load time.
The pipeline issues exactly one terminal update, but while the returned
summary status is `COMPLETED_WITH_ERRORS`, the status the update persists
to `bronze.load_metadata` is `'COMPLETED'` (line 456), with the failure
count only in `error_message` — the partial-success status is never
persisted. -/
theorem claim_C4_code_bug_exhibit :
    (ingest_retail_data testEnv c2Oracle c4Df 0 "p" "l" []).records_failed
        = 1
    ∧ (ingest_retail_data testEnv c2Oracle c4Df 0 "p" "l" []).status
        = "COMPLETED_WITH_ERRORS"
    ∧ (ingest_retail_data testEnv c2Oracle c4Df 0 "p" "l" []).updates
        = [⟨"COMPLETED", 99, 1, some "1 records failed to load"⟩] := by
  have hval : (validate_data_quality testEnv c4Df).1.is_valid = true := by
    decide
  have hload := load_data_to_bronze_spec c2Oracle (fun _ => rfl)
    (validate_data_quality testEnv c4Df).2.rows 0 "p" "l" []
  have hcnt : (toInsertRows (validate_data_quality testEnv c4Df).2.rows
      0 "p" "l" []).countP c2Oracle.rowOk = 99 := by decide
  have hlen : (toInsertRows (validate_data_quality testEnv c4Df).2.rows
      0 "p" "l" []).length = 100 := by decide
  rw [hcnt, hlen] at hload
  norm_num at hload
  simp only [ingest_retail_data]
  rw [hval]
  simp only [Bool.not_true, Bool.false_eq_true, if_false]
  rw [hload]
  norm_num
  rfl

/-! ## Claim C5 -/

/-- C5 exhibit: when the database raises a `SQLAlchemyError` while
persisting the terminal update, `update_load_metadata` catches it at line
272, logs, and returns normally — for every such error the method yields a
normal return, so the failure never propagates to the caller. -/
theorem claim_C5_code_bug_exhibit :
    (update_load_metadata (Except.error "server closed the connection")
      = Except.ok ()) ∧
    ∀ e : String, update_load_metadata (Except.error e) = Except.ok () :=
  ⟨rfl, fun _ => rfl⟩

end RetailPipeline
